import Mathlib

/-!
Verification of the Accounting Calculation Engine of the repository
(`src/streamlit_app.py`): the accounting-equation solver, the GST
splitter, the currency formatter and the journal-entry builders.

Monetary values are modelled as exact rationals (`ℚ`); optional form
inputs are modelled as `Option ℚ` with Python truthiness made explicit
(`none` and `some 0` are both falsy).
-/

set_option maxRecDepth 10000

namespace Shorya

/-- Python truthiness of an optional numeric value: present and non-zero
(`x is not None and x != 0`, and also the bare `if x:` test). -/
def pyTruthy (x : Option ℚ) : Bool :=
  match x with
  | none => false
  | some v => v ≠ 0

/-- Python `a or b` on optional numerics: `a` when truthy, else `b`
(mirrors `assets or solution.get(...)` in `solve_equation`). -/
def pyOr (a b : Option ℚ) : Option ℚ :=
  if pyTruthy a then a else b

/-- Result record of `solve_equation`: the early-exit flag, the adjusted
capital (when capital is present), the solved values placed in the
`solution` dict, and the outcome of the Step-3 verification
(`none` when the verification block is skipped). -/
structure EquationResult where
  insufficient : Bool
  adjusted_capital : Option ℚ
  sol_assets : Option ℚ
  sol_liabilities : Option ℚ
  sol_original_capital : Option ℚ
  sol_adjusted_capital : Option ℚ
  verification : Option Bool
deriving DecidableEq

/-- Field count `known_values` of `solve_equation`: how many of the three equation
terms are neither `None` nor `0`
(`sum([x is not None and x != 0 for x in [assets, liabilities, capital]])`). -/
def known_values (assets liabilities capital : Option ℚ) : ℕ :=
  (if pyTruthy assets then 1 else 0) + (if pyTruthy liabilities then 1 else 0)
    + (if pyTruthy capital then 1 else 0)

/-- Shallow embedding of `solve_equation` (src/streamlit_app.py lines
129-194): fewer than two known values aborts with the
insufficient-values error; otherwise the adjusted capital is computed
whenever capital is present, one missing term is solved by the
`if assets is None / elif liabilities is None / elif capital is None`
chain, and the verification step runs only when the Python-truthy final
assets, liabilities and adjusted capital are all available. -/
def solve_equation (assets liabilities capital : Option ℚ)
    (drawings additional_capital profit_loss : ℚ) : EquationResult :=
  if known_values assets liabilities capital < 2 then
    { insufficient := true, adjusted_capital := none, sol_assets := none,
      sol_liabilities := none, sol_original_capital := none,
      sol_adjusted_capital := none, verification := none }
  else
    let adjusted_capital : Option ℚ :=
      capital.map (fun c => c + additional_capital - drawings + profit_loss)
    let branch : Option ℚ × Option ℚ × Option ℚ × Option ℚ :=
      match assets, liabilities, capital with
      | none, some l, some _ =>
          match adjusted_capital with
          | some ac => (some (l + ac), none, none, none)
          | none => (none, none, none, none)
      | none, _, _ => (none, none, none, none)
      | some a, none, _ =>
          match adjusted_capital with
          | some ac => (none, some (a - ac), none, none)
          | none => (none, none, none, none)
      | some a, some l, none =>
          let calculated_capital := a - l
          let original_capital :=
            calculated_capital - additional_capital + drawings - profit_loss
          (none, none, some original_capital, some calculated_capital)
      | some _, some _, some _ => (none, none, none, none)
    let sol_assets := branch.1
    let sol_liabilities := branch.2.1
    let sol_original_capital := branch.2.2.1
    let sol_adjusted_capital := branch.2.2.2
    let final_assets := pyOr assets sol_assets
    let final_liabilities := pyOr liabilities sol_liabilities
    let final_capital := pyOr adjusted_capital sol_adjusted_capital
    let verification : Option Bool :=
      if pyTruthy final_assets && pyTruthy final_liabilities && pyTruthy final_capital then
        some (decide (|final_assets.getD 0 -
          (final_liabilities.getD 0 + final_capital.getD 0)| < (1/100 : ℚ)))
      else none
    { insufficient := false, adjusted_capital := adjusted_capital,
      sol_assets := sol_assets, sol_liabilities := sol_liabilities,
      sol_original_capital := sol_original_capital,
      sol_adjusted_capital := sol_adjusted_capital,
      verification := verification }

/-- Python truthiness of a string: non-empty. -/
def pyStrTruthy (s : String) : Bool := s ≠ ""

/-- Python `s or dflt` on strings: `s` when non-empty, else the default
(mirrors `supplier or 'Creditors'`). -/
def pyStrOr (s dflt : String) : String := if s = "" then dflt else s

/-- Python `s.strip()`: drop leading and trailing whitespace. -/
def pyStrip (s : String) : String :=
  String.mk (((s.data.dropWhile Char.isWhitespace).reverse.dropWhile
    Char.isWhitespace).reverse)

/-- Python `s.lower()`: lowercase every character. -/
def pyLower (s : String) : String := String.mk (s.data.map Char.toLower)

/-- Python `s.strip().lower()` as used for state comparison. -/
def normState (s : String) : String := pyLower (pyStrip s)

/-- Result record of the GST computation in `calculate_and_display_gst`. -/
structure GSTResult where
  is_interstate : Bool
  basic_amount : ℚ
  gst_amount : ℚ
  total_amount : ℚ
  cgst : ℚ
  sgst : ℚ
  igst : ℚ
deriving DecidableEq

/-- Jurisdiction determination of `calculate_and_display_gst` (src
lines 889-893): interstate when both state strings are truthy and their
stripped, lowercased forms differ, else when the transaction-type
selector says interstate, else intrastate. -/
def gst_is_interstate (transaction_type from_state to_state : String) : Bool :=
  if pyStrTruthy from_state && pyStrTruthy to_state
      && (normState from_state != normState to_state) then true
  else if transaction_type = "Interstate (Between States)" then true
  else false

/-- Shallow embedding of the computational part of
`calculate_and_display_gst` (src/streamlit_app.py lines 882-945):
jurisdiction determination from the state strings with fallback to the
transaction-type selector, the inclusive/exclusive amount computation,
and the CGST/SGST/IGST split. -/
def calculate_and_display_gst (amount gst_rate : ℚ)
    (amount_type transaction_type from_state to_state : String) : GSTResult :=
  let is_interstate := gst_is_interstate transaction_type from_state to_state
  let basic_amount :=
    if amount_type = "Inclusive of GST" then amount / (1 + gst_rate/100) else amount
  let gst_amount :=
    if amount_type = "Inclusive of GST" then amount - amount / (1 + gst_rate/100)
    else amount * (gst_rate/100)
  let total_amount := basic_amount + gst_amount
  let igst := if is_interstate then gst_amount else 0
  let cgst := if is_interstate then 0 else gst_amount / 2
  let sgst := if is_interstate then 0 else gst_amount / 2
  { is_interstate := is_interstate, basic_amount := basic_amount,
    gst_amount := gst_amount, total_amount := total_amount,
    cgst := cgst, sgst := sgst, igst := igst }

/-- The legal GST rate schedule of `validate_gst_rate`. -/
def legalRate (r : ℚ) : Prop := r = 0 ∨ r = 5 ∨ r = 12 ∨ r = 18 ∨ r = 28

/-- Drop every trailing occurrence of character `c` from `s`
(Python `s.rstrip(c)` for a single character). -/
def rstripChar (s : String) (c : Char) : String :=
  String.mk ((s.data.reverse.dropWhile (fun d => d == c)).reverse)

/-- Chunk a (reversed) digit list into groups of three, from the front. -/
def chunk3Rev : List Char → List (List Char)
  | [] => []
  | [a] => [[a]]
  | [a, b] => [[a, b]]
  | a :: b :: c :: rest => [a, b, c] :: chunk3Rev rest

/-- Decimal rendering of a natural number with a comma every three
digits, as Python format `{:,}` produces for the integer part. -/
def commaGroupNat (n : ℕ) : String :=
  let ds := Nat.toDigits 10 n
  String.mk (List.intercalate [','] ((chunk3Rev ds.reverse).reverse.map List.reverse))

/-- Round a rational to the nearest integer, ties to even — the rounding
of Python fixed-point formatting. -/
def roundHalfEven (x : ℚ) : ℤ :=
  let f := ⌊x⌋
  if x - f < 1/2 then f
  else if 1/2 < x - f then f + 1
  else if f % 2 = 0 then f else f + 1

/-- Python `f"{x:,.2f}"` for a non-negative rational: two fixed decimal
digits after half-even rounding, comma-grouped integer part. -/
def fmt2 (x : ℚ) : String :=
  let n := (roundHalfEven (x * 100)).toNat
  let ip := n / 100
  let fp := n % 100
  commaGroupNat ip ++ "." ++ (if fp < 10 then "0" ++ toString fp else toString fp)

/-- Python `.rstrip('0').rstrip('.')` applied after `fmt2`. -/
def stripTrailing (s : String) : String := rstripChar (rstripChar s '0') '.'

/-- Input to `format_currency`: a parseable number, or a value on which
`float(...)` raises (`ValueError`/`TypeError`). -/
inductive PyValue where
  | num (q : ℚ)
  | malformed
deriving DecidableEq

/-- Shallow embedding of `format_currency` (src/streamlit_app.py lines
17-45): zero short-circuits to the zero rendering; otherwise the
absolute value selects the crore (≥ 10^7), lakh (≥ 10^5) or plain
grouped-decimal branch, each stripped of trailing fractional zeros and
the trailing point; the currency symbol is prepended per the flag and a
minus sign is prefixed last for negative input; unparsable input takes
the `except` branch and yields the zero rendering. -/
def format_currency (amount : PyValue) (show_symbol : Bool) : String :=
  match amount with
  | .malformed => if show_symbol then "₹0" else "0"
  | .num a =>
    if a = 0 then (if show_symbol then "₹0" else "0")
    else
      let is_negative := a < 0
      let b := |a|
      let formatted :=
        if 10000000 ≤ b then stripTrailing (fmt2 (b / 10000000)) ++ " Cr"
        else if 100000 ≤ b then stripTrailing (fmt2 (b / 100000)) ++ " L"
        else stripTrailing (fmt2 b)
      let formatted2 := if show_symbol then "₹" ++ formatted else formatted
      if is_negative then "-" ++ formatted2 else formatted2

/-- One journal line: the dicts with keys `Account`, `Dr_Amount`,
`Cr_Amount` built by the transaction handlers. -/
structure JPosting where
  account : String
  dr_amount : ℚ
  cr_amount : ℚ
deriving DecidableEq

/-- Debit total `total_dr` of `display_journal_entry`: sum of the debit amounts. -/
def total_dr (entries : List JPosting) : ℚ := (entries.map (fun e => e.dr_amount)).sum

/-- Credit total `total_cr` of `display_journal_entry`: sum of the credit amounts. -/
def total_cr (entries : List JPosting) : ℚ := (entries.map (fun e => e.cr_amount)).sum

/-- The balance verdict of `display_journal_entry` and of the custom
entry builder: `abs(total_dr - total_cr) < 0.01`. -/
def is_balanced (entries : List JPosting) : Bool :=
  decide (|total_dr entries - total_cr entries| < (1/100 : ℚ))

/-- The generate step of `create_custom_journal_entry` (src lines
679-684): the accumulated postings are displayed unchanged when
balanced, otherwise the unbalanced error is raised and nothing is
produced. -/
def generate_custom_entry (entries : List JPosting) : Option (List JPosting) :=
  if is_balanced entries then some entries else none

/-- Posting list of `handle_cash_bank_transaction` (src lines 370-397). -/
def cash_bank_entries (cash_bank transaction_nature from_account to_account : String)
    (amount : ℚ) : List JPosting :=
  if transaction_nature = "Receipt" then
    [⟨cash_bank, amount, 0⟩, ⟨"To " ++ from_account, 0, amount⟩]
  else
    [⟨to_account, amount, 0⟩, ⟨"To " ++ cash_bank, 0, amount⟩]

/-- Posting list of `handle_purchase_transaction` (src lines 414-451). -/
def purchase_entries (purchase_type goods_type supplier : String)
    (include_gst : Bool) (gst_rate amount : ℚ) : List JPosting :=
  (if include_gst then
    [⟨goods_type ++ " Purchase", amount / (1 + gst_rate/100), 0⟩,
     ⟨"Input GST", amount - amount / (1 + gst_rate/100), 0⟩]
  else
    [⟨goods_type ++ " Purchase", amount, 0⟩]) ++
  (if purchase_type = "Credit Purchase" then
    [⟨"To " ++ pyStrOr supplier "Creditors", 0, amount⟩]
  else
    [⟨"To Cash/Bank", 0, amount⟩])

/-- Posting list of `handle_sales_transaction` (src lines 468-505). -/
def sales_entries (sales_type goods_type customer : String)
    (include_gst : Bool) (gst_rate amount : ℚ) : List JPosting :=
  (if sales_type = "Credit Sales" then
    [⟨pyStrOr customer "Debtors", amount, 0⟩]
  else
    [⟨"Cash/Bank", amount, 0⟩]) ++
  (if include_gst then
    [⟨"To " ++ goods_type ++ " Sales", 0, amount / (1 + gst_rate/100)⟩,
     ⟨"To Output GST", 0, amount - amount / (1 + gst_rate/100)⟩]
  else
    [⟨"To " ++ goods_type ++ " Sales", 0, amount⟩])

/-- Posting list of `handle_expense_transaction` (src lines 523-545). -/
def expense_entries (expense_type payment_method creditor_name : String)
    (amount : ℚ) : List JPosting :=
  ⟨expense_type ++ " Expense", amount, 0⟩ ::
  (if payment_method = "Credit" then
    [⟨"To " ++ pyStrOr creditor_name "Creditors", 0, amount⟩]
  else
    [⟨"To " ++ payment_method, 0, amount⟩])

/-- Posting list of `handle_income_transaction` (src lines 561-576). -/
def income_entries (income_type receipt_method : String) (amount : ℚ) : List JPosting :=
  [⟨receipt_method, amount, 0⟩, ⟨"To " ++ income_type, 0, amount⟩]

/-- Posting list of `handle_capital_transaction` (src lines 592-618). -/
def capital_entries (capital_type asset_type : String) (amount : ℚ) : List JPosting :=
  if capital_type = "Capital Introduced" ∨ capital_type = "Additional Capital" then
    [⟨asset_type, amount, 0⟩, ⟨"To Capital", 0, amount⟩]
  else
    [⟨"Drawings", amount, 0⟩, ⟨"To " ++ asset_type, 0, amount⟩]

/-- The closed set of predefined transaction archetypes, each carrying
the widget parameters its handler reads; the GST checkbox of the
purchase and sales forms is an `Option` rate. -/
inductive TransactionForm where
  | cashBank (cash_bank transaction_nature from_account to_account : String)
  | purchase (purchase_type goods_type supplier : String) (gst : Option ℚ)
  | sales (sales_type goods_type customer : String) (gst : Option ℚ)
  | expense (expense_type payment_method creditor_name : String)
  | income (income_type receipt_method : String)
  | capital (capital_type asset_type : String)
deriving DecidableEq

/-- Dispatch of `create_predefined_entry`: the posting list each
archetype's handler generates for a given amount. -/
def form_entries : TransactionForm → ℚ → List JPosting
  | .cashBank cb nat fa ta, amount => cash_bank_entries cb nat fa ta amount
  | .purchase pt g s (some r), amount => purchase_entries pt g s true r amount
  | .purchase pt g s none, amount => purchase_entries pt g s false 0 amount
  | .sales st g c (some r), amount => sales_entries st g c true r amount
  | .sales st g c none, amount => sales_entries st g c false 0 amount
  | .expense e m cr, amount => expense_entries e m cr amount
  | .income i m, amount => income_entries i m amount
  | .capital c a, amount => capital_entries c a amount

/-- The GST rate selectboxes of the purchase and sales forms offer
exactly 5, 12, 18 and 28 percent. -/
def form_gst_legal : TransactionForm → Prop
  | .purchase _ _ _ (some r) => r = 5 ∨ r = 12 ∨ r = 18 ∨ r = 28
  | .sales _ _ _ (some r) => r = 5 ∨ r = 12 ∨ r = 18 ∨ r = 28
  | _ => True

/-- A posting is a pure debit line or a pure credit line. -/
def oneSided (p : JPosting) : Prop :=
  (p.dr_amount ≠ 0 ∧ p.cr_amount = 0) ∨ (p.dr_amount = 0 ∧ p.cr_amount ≠ 0)

theorem solve_missing_assets_eval (l c d ac pl : ℚ) (hl : l ≠ 0) (hc : c ≠ 0) :
    solve_equation none (some l) (some c) d ac pl =
      { insufficient := false, adjusted_capital := some (c + ac - d + pl),
        sol_assets := some (l + (c + ac - d + pl)), sol_liabilities := none,
        sol_original_capital := none, sol_adjusted_capital := none,
        verification := if l + (c + ac - d + pl) ≠ 0 ∧ c + ac - d + pl ≠ 0
          then some true else none } := by
  simp only [solve_equation, known_values, pyTruthy, pyOr, hl, hc, Option.map_some,
    decide_not, if_true, if_false, Option.getD_some]
  norm_num
  by_cases h1 : l + (c + ac - d + pl) = 0 <;> by_cases h2 : c + ac - d + pl = 0 <;>
    simp [h1, h2, hl]

theorem solve_missing_liabilities_eval (a c d ac pl : ℚ) (ha : a ≠ 0) (hc : c ≠ 0) :
    solve_equation (some a) none (some c) d ac pl =
      { insufficient := false, adjusted_capital := some (c + ac - d + pl),
        sol_assets := none, sol_liabilities := some (a - (c + ac - d + pl)),
        sol_original_capital := none, sol_adjusted_capital := none,
        verification := if a - (c + ac - d + pl) ≠ 0 ∧ c + ac - d + pl ≠ 0
          then some true else none } := by
  simp only [solve_equation, known_values, pyTruthy, pyOr, ha, hc, Option.map_some,
    decide_not, if_true, if_false, Option.getD_some]
  norm_num
  by_cases h1 : a - (c + ac - d + pl) = 0 <;> by_cases h2 : c + ac - d + pl = 0 <;>
    simp [h1, h2, ha]

theorem solve_missing_capital_eval (a l d ac pl : ℚ) (ha : a ≠ 0) (hl : l ≠ 0) :
    solve_equation (some a) (some l) none d ac pl =
      { insufficient := false, adjusted_capital := none,
        sol_assets := none, sol_liabilities := none,
        sol_original_capital := some (a - l - ac + d - pl),
        sol_adjusted_capital := some (a - l),
        verification := if a - l ≠ 0 then some true else none } := by
  simp only [solve_equation, known_values, pyTruthy, pyOr, ha, hl, Option.map_none,
    decide_not, if_true, if_false, Option.getD_some]
  norm_num
  by_cases h1 : a - l = 0 <;> simp [h1, ha, hl]

/-- Claim C1: for every input where exactly one of assets, liabilities,
capital is absent (`None`) and the other two are supplied (non-null and
non-zero), `solve_equation` computes the missing term by the stated
formulas: whenever capital is present it first computes
`adjustedCapital = capital + additionalCapital - drawings + profitOrLoss`;
assets absent gives `assets = liabilities + adjustedCapital`; liabilities
absent gives `liabilities = assets - adjustedCapital`; capital absent
gives `adjustedCapital = assets - liabilities` and
`originalCapital = adjustedCapital - additionalCapital + drawings - profitOrLoss`. -/
theorem C1_equation_solver_formulas :
    (∀ l c d ac pl : ℚ, l ≠ 0 → c ≠ 0 →
      (solve_equation none (some l) (some c) d ac pl).adjusted_capital
          = some (c + ac - d + pl) ∧
      (solve_equation none (some l) (some c) d ac pl).sol_assets
          = some (l + (c + ac - d + pl))) ∧
    (∀ a c d ac pl : ℚ, a ≠ 0 → c ≠ 0 →
      (solve_equation (some a) none (some c) d ac pl).adjusted_capital
          = some (c + ac - d + pl) ∧
      (solve_equation (some a) none (some c) d ac pl).sol_liabilities
          = some (a - (c + ac - d + pl))) ∧
    (∀ a l d ac pl : ℚ, a ≠ 0 → l ≠ 0 →
      (solve_equation (some a) (some l) none d ac pl).sol_adjusted_capital
          = some (a - l) ∧
      (solve_equation (some a) (some l) none d ac pl).sol_original_capital
          = some (a - l - ac + d - pl)) := by
  refine ⟨fun l c d ac pl hl hc => ?_, fun a c d ac pl ha hc => ?_,
    fun a l d ac pl ha hl => ?_⟩
  · rw [solve_missing_assets_eval l c d ac pl hl hc]; exact ⟨rfl, rfl⟩
  · rw [solve_missing_liabilities_eval a c d ac pl ha hc]; exact ⟨rfl, rfl⟩
  · rw [solve_missing_capital_eval a l d ac pl ha hl]; exact ⟨rfl, rfl⟩

/-- Witness for C1 at the spec scenarios: Liabilities 50000 and Capital
150000 give Assets 200000; Assets 300000 and Liabilities 75000 give
Capital 225000. -/
theorem C1_equation_solver_formulas_witness :
    (solve_equation none (some 50000) (some 150000) 0 0 0).sol_assets = some 200000 ∧
    (solve_equation (some 300000) (some 75000) none 0 0 0).sol_original_capital
      = some 225000 := by
  constructor
  · have h := (C1_equation_solver_formulas.1 50000 150000 0 0 0
      (by norm_num) (by norm_num)).2
    rw [h]; norm_num
  · have h := (C1_equation_solver_formulas.2.2 300000 75000 0 0 0
      (by norm_num) (by norm_num)).2
    rw [h]; norm_num

/-- Counterexample to claim C2 as stated: with Assets = 100 and
Liabilities = 0 both supplied (the latter legitimately zero) and Capital
absent, the claim promises a computed solution, but `solve_equation`
counts the zero as unknown and fails with the insufficient-values error,
computing nothing. -/
theorem C2_insufficient_counterexample :
    (solve_equation (some 100) (some 0) none 0 0 0).insufficient = true ∧
    (solve_equation (some 100) (some 0) none 0 0 0).sol_original_capital = none ∧
    (solve_equation (some 100) (some 0) none 0 0 0).sol_adjusted_capital = none := by
  simp only [solve_equation, known_values, pyTruthy]
  norm_num

/-- Claim C2 (amended): `solve_equation` fails with the
insufficient-values error, attempting no computation, exactly when fewer
than two of assets, liabilities, capital are supplied, where a value
counts as supplied only when it is non-null and non-zero (a supplied
zero is treated as unknown); conversely, whenever at least two of the
three are supplied in this sense and the remaining one is null, the
missing term is computed. -/
theorem C2_insufficient_exactly (a l c : Option ℚ) (d ac pl : ℚ) :
    ((solve_equation a l c d ac pl).insufficient = true ↔
      known_values a l c < 2) ∧
    ((solve_equation a l c d ac pl).insufficient = true →
      (solve_equation a l c d ac pl).adjusted_capital = none ∧
      (solve_equation a l c d ac pl).sol_assets = none ∧
      (solve_equation a l c d ac pl).sol_liabilities = none ∧
      (solve_equation a l c d ac pl).sol_original_capital = none ∧
      (solve_equation a l c d ac pl).sol_adjusted_capital = none ∧
      (solve_equation a l c d ac pl).verification = none) ∧
    (a = none → pyTruthy l = true → pyTruthy c = true →
      ((solve_equation a l c d ac pl).sol_assets).isSome = true) ∧
    (l = none → pyTruthy a = true → pyTruthy c = true →
      ((solve_equation a l c d ac pl).sol_liabilities).isSome = true) ∧
    (c = none → pyTruthy a = true → pyTruthy l = true →
      ((solve_equation a l c d ac pl).sol_original_capital).isSome = true ∧
      ((solve_equation a l c d ac pl).sol_adjusted_capital).isSome = true) := by
  refine ⟨?_, ?_, ?_, ?_, ?_⟩
  · by_cases h : known_values a l c < 2 <;> simp [solve_equation, h]
  · by_cases h : known_values a l c < 2 <;> simp [solve_equation, h]
  · rintro rfl hl hc
    match l, c with
    | some lv, some cv =>
      have hlv : lv ≠ 0 := by simpa [pyTruthy] using hl
      have hcv : cv ≠ 0 := by simpa [pyTruthy] using hc
      rw [solve_missing_assets_eval lv cv d ac pl hlv hcv]
      rfl
  · rintro rfl ha hc
    match a, c with
    | some av, some cv =>
      have hav : av ≠ 0 := by simpa [pyTruthy] using ha
      have hcv : cv ≠ 0 := by simpa [pyTruthy] using hc
      rw [solve_missing_liabilities_eval av cv d ac pl hav hcv]
      rfl
  · rintro rfl ha hl
    match a, l with
    | some av, some lv =>
      have hav : av ≠ 0 := by simpa [pyTruthy] using ha
      have hlv : lv ≠ 0 := by simpa [pyTruthy] using hl
      rw [solve_missing_capital_eval av lv d ac pl hav hlv]
      exact ⟨rfl, rfl⟩

/-- Witness for C2 at a concrete input: with only Capital = 150000
supplied the solver fails with the insufficient-values error. -/
theorem C2_insufficient_exactly_witness :
    (solve_equation none none (some 150000) 0 0 0).insufficient = true := by
  have h := (C2_insufficient_exactly none none (some 150000) 0 0 0).1
  rw [h]
  simp [known_values, pyTruthy]

/-- Counterexample to claim C3 as stated: with Liabilities = 5, Capital
= 7 and Drawings = 7 the solver successfully computes Assets = 5, yet
the post-solve verification is skipped entirely (the adjusted capital is
0, which Python truthiness treats as missing), so the re-verification is
not performed after every successful solve. -/
theorem C3_verification_counterexample :
    (solve_equation none (some 5) (some 7) 7 0 0).sol_assets = some 5 ∧
    (solve_equation none (some 5) (some 7) 7 0 0).verification = none := by
  rw [solve_missing_assets_eval 5 7 7 0 0 (by norm_num) (by norm_num)]
  norm_num

/-- Claim C3 (amended): the post-solve verification checks
`abs(assets - (liabilities + adjustedCapital)) < 0.01`, but it is
performed only when the final assets, liabilities and adjusted capital
are all non-null and non-zero — it can be skipped after a successful
solve.  When one of the three terms was absent and the other two were
supplied non-zero, the verification, whenever it is performed, always
reports balance: the mismatch branch is unreachable in the solving
configurations. -/
theorem C3_verification_no_mismatch :
    (∀ l c d ac pl : ℚ, l ≠ 0 → c ≠ 0 →
      (solve_equation none (some l) (some c) d ac pl).verification = none ∨
      (solve_equation none (some l) (some c) d ac pl).verification = some true) ∧
    (∀ a c d ac pl : ℚ, a ≠ 0 → c ≠ 0 →
      (solve_equation (some a) none (some c) d ac pl).verification = none ∨
      (solve_equation (some a) none (some c) d ac pl).verification = some true) ∧
    (∀ a l d ac pl : ℚ, a ≠ 0 → l ≠ 0 →
      (solve_equation (some a) (some l) none d ac pl).verification = none ∨
      (solve_equation (some a) (some l) none d ac pl).verification = some true) := by
  refine ⟨fun l c d ac pl hl hc => ?_, fun a c d ac pl ha hc => ?_,
    fun a l d ac pl ha hl => ?_⟩
  · rw [solve_missing_assets_eval l c d ac pl hl hc]
    by_cases h : l + (c + ac - d + pl) ≠ 0 ∧ c + ac - d + pl ≠ 0 <;> simp [h]
  · rw [solve_missing_liabilities_eval a c d ac pl ha hc]
    by_cases h : a - (c + ac - d + pl) ≠ 0 ∧ c + ac - d + pl ≠ 0 <;> simp [h]
  · rw [solve_missing_capital_eval a l d ac pl ha hl]
    by_cases h : a - l ≠ 0 <;> simp [h]

/-- Witness for C3 at a concrete input: solving Assets from Liabilities
50000 and Capital 150000 performs the verification and it passes. -/
theorem C3_verification_no_mismatch_witness :
    (solve_equation none (some 50000) (some 150000) 0 0 0).verification = none ∨
    (solve_equation none (some 50000) (some 150000) 0 0 0).verification = some true :=
  C3_verification_no_mismatch.1 50000 150000 0 0 0 (by norm_num) (by norm_num)

theorem gst_incl_eval (amount rate : ℚ) (tt fs ts : String) :
    calculate_and_display_gst amount rate "Inclusive of GST" tt fs ts =
      { is_interstate := gst_is_interstate tt fs ts,
        basic_amount := amount / (1 + rate/100),
        gst_amount := amount - amount / (1 + rate/100),
        total_amount := amount / (1 + rate/100) + (amount - amount / (1 + rate/100)),
        cgst := if gst_is_interstate tt fs ts then 0
          else (amount - amount / (1 + rate/100)) / 2,
        sgst := if gst_is_interstate tt fs ts then 0
          else (amount - amount / (1 + rate/100)) / 2,
        igst := if gst_is_interstate tt fs ts then amount - amount / (1 + rate/100)
          else 0 } := rfl

theorem gst_excl_eval (amount rate : ℚ) (tt fs ts : String) :
    calculate_and_display_gst amount rate "Exclusive of GST" tt fs ts =
      { is_interstate := gst_is_interstate tt fs ts,
        basic_amount := amount,
        gst_amount := amount * (rate/100),
        total_amount := amount + amount * (rate/100),
        cgst := if gst_is_interstate tt fs ts then 0 else amount * (rate/100) / 2,
        sgst := if gst_is_interstate tt fs ts then 0 else amount * (rate/100) / 2,
        igst := if gst_is_interstate tt fs ts then amount * (rate/100) else 0 } := by
  have h : ¬ (("Exclusive of GST" : String) = "Inclusive of GST") := by decide
  simp only [calculate_and_display_gst, if_neg h]

/-- Claim C4: for every amount and legal rate, the tax-inclusive branch
computes `basicAmount = amount / (1 + rate/100)` and
`taxAmount = amount - basicAmount`, the tax-exclusive branch computes
`basicAmount = amount` and `taxAmount = amount * rate/100`, and in both
cases `totalAmount = basicAmount + taxAmount`; at rate 0 the inclusive
denominator is 1 (no division by zero) and the result is
`basicAmount = amount` with every tax component 0. -/
theorem C4_gst_amount_formulas (amount rate : ℚ) (tt fs ts : String)
    (h : legalRate rate) :
    ((calculate_and_display_gst amount rate "Inclusive of GST" tt fs ts).basic_amount
        = amount / (1 + rate/100) ∧
      (calculate_and_display_gst amount rate "Inclusive of GST" tt fs ts).gst_amount
        = amount -
          (calculate_and_display_gst amount rate "Inclusive of GST" tt fs ts).basic_amount ∧
      (calculate_and_display_gst amount rate "Inclusive of GST" tt fs ts).total_amount
        = (calculate_and_display_gst amount rate "Inclusive of GST" tt fs ts).basic_amount +
          (calculate_and_display_gst amount rate "Inclusive of GST" tt fs ts).gst_amount) ∧
    ((calculate_and_display_gst amount rate "Exclusive of GST" tt fs ts).basic_amount
        = amount ∧
      (calculate_and_display_gst amount rate "Exclusive of GST" tt fs ts).gst_amount
        = amount * (rate/100) ∧
      (calculate_and_display_gst amount rate "Exclusive of GST" tt fs ts).total_amount
        = (calculate_and_display_gst amount rate "Exclusive of GST" tt fs ts).basic_amount +
          (calculate_and_display_gst amount rate "Exclusive of GST" tt fs ts).gst_amount) ∧
    (rate = 0 →
      (1 + rate/100 : ℚ) = 1 ∧
      (calculate_and_display_gst amount rate "Inclusive of GST" tt fs ts).basic_amount
        = amount ∧
      (calculate_and_display_gst amount rate "Inclusive of GST" tt fs ts).gst_amount = 0 ∧
      (calculate_and_display_gst amount rate "Inclusive of GST" tt fs ts).cgst = 0 ∧
      (calculate_and_display_gst amount rate "Inclusive of GST" tt fs ts).sgst = 0 ∧
      (calculate_and_display_gst amount rate "Inclusive of GST" tt fs ts).igst = 0) := by
  refine ⟨⟨?_, ?_, ?_⟩, ⟨?_, ?_, ?_⟩, ?_⟩
  · rw [gst_incl_eval]
  · rw [gst_incl_eval]
  · rw [gst_incl_eval]
  · rw [gst_excl_eval]
  · rw [gst_excl_eval]
  · rw [gst_excl_eval]
  · rintro rfl
    rw [gst_incl_eval]
    norm_num

/-- Witness for C4 at amount 1000 and rate 18. -/
theorem C4_gst_amount_formulas_witness :
    (calculate_and_display_gst 1000 18 "Exclusive of GST" "Intrastate (Within State)"
      "" "").gst_amount = 1000 * (18/100) := by
  have h := (C4_gst_amount_formulas 1000 18 "Intrastate (Within State)" "" ""
    (by right; right; right; left; rfl)).2.1.2.1
  rw [h]

theorem gst_notincl_eval (amount rate : ℚ) (atype tt fs ts : String)
    (h : ¬ atype = "Inclusive of GST") :
    calculate_and_display_gst amount rate atype tt fs ts =
      { is_interstate := gst_is_interstate tt fs ts,
        basic_amount := amount,
        gst_amount := amount * (rate/100),
        total_amount := amount + amount * (rate/100),
        cgst := if gst_is_interstate tt fs ts then 0 else amount * (rate/100) / 2,
        sgst := if gst_is_interstate tt fs ts then 0 else amount * (rate/100) / 2,
        igst := if gst_is_interstate tt fs ts then amount * (rate/100) else 0 } := by
  simp only [calculate_and_display_gst, if_neg h]

theorem gst_amount_pos (amount rate : ℚ) (atype tt fs ts : String)
    (ha : 0 < amount) (hr : 0 < rate) :
    0 < (calculate_and_display_gst amount rate atype tt fs ts).gst_amount := by
  have hq : (0:ℚ) < rate/100 := by positivity
  by_cases h : atype = "Inclusive of GST"
  · subst h
    rw [gst_incl_eval]
    have h1 : (1:ℚ) < 1 + rate/100 := by linarith
    have h2 := div_lt_self ha h1
    simpa using sub_pos.mpr h2
  · rw [gst_notincl_eval amount rate atype tt fs ts h]
    simpa using mul_pos ha hq

theorem legal_nonzero_rate_pos (rate : ℚ) (hr : legalRate rate) (h0 : rate ≠ 0) :
    0 < rate := by
  rcases hr with h | h | h | h | h <;> subst h <;> first | exact absurd rfl h0 | norm_num

/-- Counterexample to claim C5 as stated: at amount 1000 (positive),
legal rate 0 and an interstate transaction, CGST, SGST and IGST are all
zero, so it is false that exactly one of the CGST-and-SGST pair and IGST
is non-zero. -/
theorem C5_gst_split_counterexample :
    (calculate_and_display_gst 1000 0 "Exclusive of GST"
        "Interstate (Between States)" "" "").is_interstate = true ∧
    (calculate_and_display_gst 1000 0 "Exclusive of GST"
        "Interstate (Between States)" "" "").cgst = 0 ∧
    (calculate_and_display_gst 1000 0 "Exclusive of GST"
        "Interstate (Between States)" "" "").sgst = 0 ∧
    (calculate_and_display_gst 1000 0 "Exclusive of GST"
        "Interstate (Between States)" "" "").igst = 0 := by
  have hi : gst_is_interstate "Interstate (Between States)" "" "" = true := by decide
  rw [gst_excl_eval, hi]
  norm_num

/-- Claim C5 (amended): for every positive amount, legal rate and either
jurisdiction, CGST + SGST + IGST equals the tax amount exactly;
interstate gives IGST = taxAmount with CGST = SGST = 0, intrastate gives
CGST = SGST = taxAmount/2 with IGST = 0; hence at most one of the
CGST-and-SGST pair and IGST is non-zero, and exactly one whenever the
rate is non-zero (at rate 0 every component is zero). -/
theorem C5_gst_split_invariants (amount rate : ℚ) (atype tt fs ts : String)
    (ha : 0 < amount) (hr : legalRate rate) :
    ((calculate_and_display_gst amount rate atype tt fs ts).cgst +
        (calculate_and_display_gst amount rate atype tt fs ts).sgst +
        (calculate_and_display_gst amount rate atype tt fs ts).igst =
      (calculate_and_display_gst amount rate atype tt fs ts).gst_amount) ∧
    ((calculate_and_display_gst amount rate atype tt fs ts).is_interstate = true →
      (calculate_and_display_gst amount rate atype tt fs ts).igst =
        (calculate_and_display_gst amount rate atype tt fs ts).gst_amount ∧
      (calculate_and_display_gst amount rate atype tt fs ts).cgst = 0 ∧
      (calculate_and_display_gst amount rate atype tt fs ts).sgst = 0) ∧
    ((calculate_and_display_gst amount rate atype tt fs ts).is_interstate = false →
      (calculate_and_display_gst amount rate atype tt fs ts).cgst =
        (calculate_and_display_gst amount rate atype tt fs ts).gst_amount / 2 ∧
      (calculate_and_display_gst amount rate atype tt fs ts).sgst =
        (calculate_and_display_gst amount rate atype tt fs ts).gst_amount / 2 ∧
      (calculate_and_display_gst amount rate atype tt fs ts).igst = 0) ∧
    (rate ≠ 0 →
      (((calculate_and_display_gst amount rate atype tt fs ts).cgst ≠ 0 ∨
          (calculate_and_display_gst amount rate atype tt fs ts).sgst ≠ 0) ∧
        (calculate_and_display_gst amount rate atype tt fs ts).igst = 0) ∨
      (((calculate_and_display_gst amount rate atype tt fs ts).cgst = 0 ∧
          (calculate_and_display_gst amount rate atype tt fs ts).sgst = 0) ∧
        (calculate_and_display_gst amount rate atype tt fs ts).igst ≠ 0)) := by
  have hpos : ∀ h0 : rate ≠ 0,
      0 < (calculate_and_display_gst amount rate atype tt fs ts).gst_amount :=
    fun h0 => gst_amount_pos amount rate atype tt fs ts ha
      (legal_nonzero_rate_pos rate hr h0)
  by_cases h : atype = "Inclusive of GST"
  · subst h
    have hg : rate ≠ 0 → 0 < amount - amount / (1 + rate/100) := fun h0 => hpos h0
    rw [gst_incl_eval]
    by_cases hi : gst_is_interstate tt fs ts = true
    · refine ⟨by simp [hi], fun _ => ⟨by simp [hi], by simp [hi], by simp [hi]⟩,
        fun hf => ?_, fun hx => ?_⟩
      · rw [hi] at hf; cases hf
      · right
        refine ⟨⟨by simp [hi], by simp [hi]⟩, ?_⟩
        simpa [hi] using (hg hx).ne'
    · rw [Bool.not_eq_true] at hi
      refine ⟨?_, fun ht => ?_, fun _ => ⟨by simp [hi], by simp [hi], by simp [hi]⟩,
        fun hx => ?_⟩
      · simp only [hi]
        norm_num
      · rw [hi] at ht; cases ht
      · left
        refine ⟨Or.inl ?_, by simp [hi]⟩
        simpa [hi] using (half_pos (hg hx)).ne'
  · have hg : rate ≠ 0 → 0 < amount * (rate/100) := fun h0 => by
      have := hpos h0
      rwa [gst_notincl_eval amount rate atype tt fs ts h] at this
    rw [gst_notincl_eval amount rate atype tt fs ts h]
    by_cases hi : gst_is_interstate tt fs ts = true
    · refine ⟨by simp [hi], fun _ => ⟨by simp [hi], by simp [hi], by simp [hi]⟩,
        fun hf => ?_, fun hx => ?_⟩
      · rw [hi] at hf; cases hf
      · right
        refine ⟨⟨by simp [hi], by simp [hi]⟩, ?_⟩
        simpa [hi] using (hg hx).ne'
    · rw [Bool.not_eq_true] at hi
      refine ⟨?_, fun ht => ?_, fun _ => ⟨by simp [hi], by simp [hi], by simp [hi]⟩,
        fun hx => ?_⟩
      · simp only [hi]
        norm_num
      · rw [hi] at ht; cases ht
      · left
        refine ⟨Or.inl ?_, by simp [hi]⟩
        simpa [hi] using (half_pos (hg hx)).ne'

/-- Witness for C5 at amount 1000, rate 18, interstate: the split sums
to the tax amount. -/
theorem C5_gst_split_invariants_witness :
    (calculate_and_display_gst 1000 18 "Exclusive of GST"
        "Interstate (Between States)" "" "").cgst +
      (calculate_and_display_gst 1000 18 "Exclusive of GST"
        "Interstate (Between States)" "" "").sgst +
      (calculate_and_display_gst 1000 18 "Exclusive of GST"
        "Interstate (Between States)" "" "").igst =
      (calculate_and_display_gst 1000 18 "Exclusive of GST"
        "Interstate (Between States)" "" "").gst_amount :=
  (C5_gst_split_invariants 1000 18 "Exclusive of GST" "Interstate (Between States)"
    "" "" (by norm_num) (by right; right; right; left; rfl)).1

/-- Claim C6: for every legal rate R and amount A ≥ 0, the exclusive
total T = A * (1 + R/100), and re-deriving the basic amount from T in
the inclusive branch recovers A exactly, hence within 0.01. -/
theorem C6_round_trip (A R : ℚ) (tt fs ts tt2 fs2 ts2 : String)
    (hA : 0 ≤ A) (hR : legalRate R) :
    (calculate_and_display_gst A R "Exclusive of GST" tt fs ts).total_amount
        = A * (1 + R/100) ∧
    (calculate_and_display_gst
        ((calculate_and_display_gst A R "Exclusive of GST" tt fs ts).total_amount)
        R "Inclusive of GST" tt2 fs2 ts2).basic_amount = A ∧
    |(calculate_and_display_gst
        ((calculate_and_display_gst A R "Exclusive of GST" tt fs ts).total_amount)
        R "Inclusive of GST" tt2 fs2 ts2).basic_amount - A| < 1/100 := by
  have hden : (1 + R/100 : ℚ) ≠ 0 := by
    rcases hR with h | h | h | h | h <;> subst h <;> norm_num
  have h1 : (calculate_and_display_gst A R "Exclusive of GST" tt fs ts).total_amount
      = A * (1 + R/100) := by
    rw [gst_excl_eval]
    ring
  have h2 : (calculate_and_display_gst
      ((calculate_and_display_gst A R "Exclusive of GST" tt fs ts).total_amount)
      R "Inclusive of GST" tt2 fs2 ts2).basic_amount = A := by
    rw [h1, gst_incl_eval]
    exact mul_div_cancel_right₀ A hden
  refine ⟨h1, h2, ?_⟩
  rw [h2]
  simp

/-- Witness for C6 at A = 1000, R = 5. -/
theorem C6_round_trip_witness :
    (calculate_and_display_gst
        ((calculate_and_display_gst 1000 5 "Exclusive of GST" "x" "" "").total_amount)
        5 "Inclusive of GST" "x" "" "").basic_amount = 1000 :=
  (C6_round_trip 1000 5 "x" "" "" "x" "" "" (by norm_num)
    (by right; left; rfl)).2.1

theorem gst_is_interstate_proj (amount rate : ℚ) (atype tt fs ts : String) :
    (calculate_and_display_gst amount rate atype tt fs ts).is_interstate
      = gst_is_interstate tt fs ts := rfl

/-- Claim C7: jurisdiction precedence — interstate whenever both state
strings are present (non-empty) and differ after trimming and
lowercasing; otherwise (a state missing, or the states equal) the
transaction-type selector decides; in particular with both states empty
the selector alone is authoritative. -/
theorem C7_jurisdiction_precedence (amount rate : ℚ) (atype tt fs ts : String) :
    (fs ≠ "" → ts ≠ "" → normState fs ≠ normState ts →
      (calculate_and_display_gst amount rate atype tt fs ts).is_interstate = true) ∧
    ((fs = "" ∨ ts = "" ∨ normState fs = normState ts) →
      (calculate_and_display_gst amount rate atype tt fs ts).is_interstate =
        decide (tt = "Interstate (Between States)")) ∧
    (fs = "" → ts = "" →
      (calculate_and_display_gst amount rate atype tt fs ts).is_interstate =
        decide (tt = "Interstate (Between States)")) := by
  rw [gst_is_interstate_proj]
  refine ⟨fun hfs hts hne => ?_, fun hcase => ?_, fun hfs hts => ?_⟩
  · simp [gst_is_interstate, pyStrTruthy, hfs, hts, bne_iff_ne, hne]
  · have hcond : (pyStrTruthy fs && pyStrTruthy ts
        && (normState fs != normState ts)) = false := by
      rcases hcase with h | h | h <;> simp [pyStrTruthy, h, bne_iff_ne]
    rw [gst_is_interstate, hcond]
    by_cases htt : tt = "Interstate (Between States)" <;> simp [htt]
  · have hcond : (pyStrTruthy fs && pyStrTruthy ts
        && (normState fs != normState ts)) = false := by
      simp [pyStrTruthy, hfs, hts]
    rw [gst_is_interstate, hcond]
    by_cases htt : tt = "Interstate (Between States)" <;> simp [htt]

/-- Witness for C7: Maharashtra to Gujarat is interstate regardless of
the selector; with no states given the intrastate selector decides. -/
theorem C7_jurisdiction_precedence_witness :
    (calculate_and_display_gst 1000 18 "Exclusive of GST"
        "Intrastate (Within State)" "Maharashtra" "Gujarat").is_interstate = true ∧
    (calculate_and_display_gst 1000 18 "Exclusive of GST"
        "Intrastate (Within State)" "" "").is_interstate =
      decide (("Intrastate (Within State)" : String) = "Interstate (Between States)") := by
  constructor
  · exact (C7_jurisdiction_precedence 1000 18 "Exclusive of GST"
      "Intrastate (Within State)" "Maharashtra" "Gujarat").1
      (by decide) (by decide) (by decide)
  · exact (C7_jurisdiction_precedence 1000 18 "Exclusive of GST"
      "Intrastate (Within State)" "" "").2.2 rfl rfl

theorem format_crore_eval (q : ℚ) (sym : Bool) (hq : q ≠ 0) (hge : 10000000 ≤ |q|) :
    format_currency (.num q) sym =
      (if q < 0 then
        "-" ++ (if sym then "₹" ++ (stripTrailing (fmt2 (|q| / 10000000)) ++ " Cr")
          else stripTrailing (fmt2 (|q| / 10000000)) ++ " Cr")
      else (if sym then "₹" ++ (stripTrailing (fmt2 (|q| / 10000000)) ++ " Cr")
          else stripTrailing (fmt2 (|q| / 10000000)) ++ " Cr")) := by
  rw [format_currency, if_neg hq]
  simp only [if_pos hge]

theorem format_lakh_eval (q : ℚ) (sym : Bool) (hq : q ≠ 0)
    (hge : 100000 ≤ |q|) (hlt : |q| < 10000000) :
    format_currency (.num q) sym =
      (if q < 0 then
        "-" ++ (if sym then "₹" ++ (stripTrailing (fmt2 (|q| / 100000)) ++ " L")
          else stripTrailing (fmt2 (|q| / 100000)) ++ " L")
      else (if sym then "₹" ++ (stripTrailing (fmt2 (|q| / 100000)) ++ " L")
          else stripTrailing (fmt2 (|q| / 100000)) ++ " L")) := by
  rw [format_currency, if_neg hq]
  simp only [if_neg (not_le.mpr hlt), if_pos hge]

theorem format_small_eval (q : ℚ) (sym : Bool) (hq : q ≠ 0) (hlt : |q| < 100000) :
    format_currency (.num q) sym =
      (if q < 0 then
        "-" ++ (if sym then "₹" ++ stripTrailing (fmt2 |q|)
          else stripTrailing (fmt2 |q|))
      else (if sym then "₹" ++ stripTrailing (fmt2 |q|)
          else stripTrailing (fmt2 |q|))) := by
  have hlt2 : |q| < 10000000 := by linarith
  rw [format_currency, if_neg hq]
  simp only [if_neg (not_le.mpr hlt), if_neg (not_le.mpr hlt2)]

theorem fmt2_of_5_halves : fmt2 (5/2 : ℚ) = "2.50" := by
  have h : roundHalfEven ((5/2 : ℚ) * 100) = 250 := by rw [roundHalfEven]; norm_num
  rw [fmt2, h]
  decide

theorem fmt2_of_2 : fmt2 (2 : ℚ) = "2.00" := by
  have h : roundHalfEven ((2 : ℚ) * 100) = 200 := by rw [roundHalfEven]; norm_num
  rw [fmt2, h]
  decide

theorem fmt2_of_1234 : fmt2 (1234 : ℚ) = "1,234.00" := by
  have h : roundHalfEven ((1234 : ℚ) * 100) = 123400 := by rw [roundHalfEven]; norm_num
  rw [fmt2, h]
  decide

/-- Claim C8: `format_currency` renders 0 as "0" (symbol per flag);
malformed input yields the same zero rendering, so the function is
total; magnitude at least 10^7 renders in crore units (divide by 10^7,
suffix " Cr"), magnitude in [10^5, 10^7) in lakh units (divide by 10^5,
suffix " L"), smaller magnitudes as a grouped decimal; every branch
strips trailing fractional zeros and a trailing decimal point
(2.50 to "2.5", 2.00 to "2"); negatives are rendered from the absolute
value with "-" prefixed after the symbol. -/
theorem C8_format_currency_rules :
    (format_currency (.num 0) true = "₹0" ∧ format_currency (.num 0) false = "0") ∧
    (∀ sym : Bool, format_currency .malformed sym = format_currency (.num 0) sym) ∧
    (∀ (q : ℚ) (sym : Bool), q ≠ 0 → 10000000 ≤ |q| →
      format_currency (.num q) sym =
        (if q < 0 then
          "-" ++ (if sym then "₹" ++ (stripTrailing (fmt2 (|q| / 10000000)) ++ " Cr")
            else stripTrailing (fmt2 (|q| / 10000000)) ++ " Cr")
        else (if sym then "₹" ++ (stripTrailing (fmt2 (|q| / 10000000)) ++ " Cr")
            else stripTrailing (fmt2 (|q| / 10000000)) ++ " Cr"))) ∧
    (∀ (q : ℚ) (sym : Bool), q ≠ 0 → 100000 ≤ |q| → |q| < 10000000 →
      format_currency (.num q) sym =
        (if q < 0 then
          "-" ++ (if sym then "₹" ++ (stripTrailing (fmt2 (|q| / 100000)) ++ " L")
            else stripTrailing (fmt2 (|q| / 100000)) ++ " L")
        else (if sym then "₹" ++ (stripTrailing (fmt2 (|q| / 100000)) ++ " L")
            else stripTrailing (fmt2 (|q| / 100000)) ++ " L"))) ∧
    (∀ (q : ℚ) (sym : Bool), q ≠ 0 → |q| < 100000 →
      format_currency (.num q) sym =
        (if q < 0 then
          "-" ++ (if sym then "₹" ++ stripTrailing (fmt2 |q|)
            else stripTrailing (fmt2 |q|))
        else (if sym then "₹" ++ stripTrailing (fmt2 |q|)
            else stripTrailing (fmt2 |q|)))) ∧
    (format_currency (.num (5/2)) false = "2.5" ∧
      format_currency (.num 2) false = "2" ∧
      format_currency (.num (-250000)) true = "-₹2.5 L" ∧
      format_currency (.num 1234) false = "1,234") := by
  refine ⟨⟨rfl, rfl⟩, fun sym => by cases sym <;> rfl,
    format_crore_eval, format_lakh_eval, format_small_eval, ?_, ?_, ?_, ?_⟩
  · have habs : |(5/2 : ℚ)| = 5/2 := by rw [abs_of_pos] <;> norm_num
    rw [format_small_eval (5/2) false (by norm_num) (by rw [habs]; norm_num)]
    rw [if_neg (by norm_num : ¬ (5/2 : ℚ) < 0), if_neg Bool.false_ne_true, habs,
      fmt2_of_5_halves]
    decide
  · have habs : |(2 : ℚ)| = 2 := by rw [abs_of_pos] <;> norm_num
    rw [format_small_eval 2 false (by norm_num) (by rw [habs]; norm_num)]
    rw [if_neg (by norm_num : ¬ (2 : ℚ) < 0), if_neg Bool.false_ne_true, habs,
      fmt2_of_2]
    decide
  · have habs : |(-250000 : ℚ)| = 250000 := by rw [abs_of_neg] <;> norm_num
    have hdiv : (250000 : ℚ) / 100000 = 5/2 := by norm_num
    rw [format_lakh_eval (-250000) true (by norm_num) (by rw [habs]; norm_num)
      (by rw [habs]; norm_num)]
    rw [if_pos (by norm_num : (-250000 : ℚ) < 0), if_pos rfl, habs, hdiv,
      fmt2_of_5_halves]
    decide
  · have habs : |(1234 : ℚ)| = 1234 := by rw [abs_of_pos] <;> norm_num
    rw [format_small_eval 1234 false (by norm_num) (by rw [habs]; norm_num)]
    rw [if_neg (by norm_num : ¬ (1234 : ℚ) < 0), if_neg Bool.false_ne_true, habs,
      fmt2_of_1234]
    decide

/-- Witness for C8: the branch rules applied at 25000000 with the
symbol flag produce the crore rendering. -/
theorem C8_format_currency_rules_witness :
    format_currency (.num 25000000) true = "₹2.5 Cr" := by
  have habs : |(25000000 : ℚ)| = 25000000 := by rw [abs_of_pos] <;> norm_num
  have h := C8_format_currency_rules.2.2.1 25000000 true (by norm_num)
    (by rw [habs]; norm_num)
  rw [h, if_neg (by norm_num : ¬ (25000000 : ℚ) < 0), if_pos rfl, habs,
    (by norm_num : (25000000 : ℚ) / 10000000 = 5/2), fmt2_of_5_halves]
  decide

theorem is_balanced_of_eq (entries : List JPosting)
    (h : total_dr entries = total_cr entries) : is_balanced entries = true := by
  simp [is_balanced, h]

/-- Counterexample to claim C9 as stated: the posting list
[A debit 1.01, B credit 1.00] has debit and credit sums differing by
exactly 0.01 — not by more than the tolerance — yet the validation
reports it unbalanced and the generate step refuses it. -/
theorem C9_unbalanced_counterexample :
    total_dr [⟨"A", 101/100, 0⟩, ⟨"B", 0, 1⟩] -
      total_cr [⟨"A", 101/100, 0⟩, ⟨"B", 0, 1⟩] = 1/100 ∧
    ¬ ((1:ℚ)/100 > 1/100) ∧
    is_balanced [⟨"A", 101/100, 0⟩, ⟨"B", 0, 1⟩] = false ∧
    generate_custom_entry [⟨"A", 101/100, 0⟩, ⟨"B", 0, 1⟩] = none := by
  have hd : total_dr [⟨"A", 101/100, 0⟩, ⟨"B", 0, 1⟩] -
      total_cr [⟨"A", 101/100, 0⟩, ⟨"B", 0, 1⟩] = 1/100 := by
    simp [total_dr, total_cr]
    norm_num
  have hb : is_balanced [⟨"A", 101/100, 0⟩, ⟨"B", 0, 1⟩] = false := by
    simp only [is_balanced, hd, decide_eq_false_iff_not, not_lt]
    rw [abs_of_pos] <;> norm_num
  refine ⟨hd, by norm_num, hb, ?_⟩
  simp [generate_custom_entry, hb]

/-- Claim C9 (amended): the journal validation fails with the
unbalanced error exactly when the debit and credit sums differ by at
least the tolerance 0.01 (a difference of exactly 0.01 already fails);
posting lists with equal sums always pass; and the generate step never
alters the postings — a successful validation returns them unchanged,
an imbalance is only reported. -/
theorem C9_validate_unbalanced (entries : List JPosting) :
    (is_balanced entries = false ↔
      (1/100 : ℚ) ≤ |total_dr entries - total_cr entries|) ∧
    (total_dr entries = total_cr entries → is_balanced entries = true) ∧
    (∀ res, generate_custom_entry entries = some res → res = entries) ∧
    (generate_custom_entry entries = none ↔ is_balanced entries = false) := by
  refine ⟨?_, fun h => is_balanced_of_eq entries h, fun res h => ?_, ?_⟩
  · simp [is_balanced, not_lt]
  · by_cases hb : is_balanced entries = true
    · simpa [generate_custom_entry, hb] using h.symm
    · simp [generate_custom_entry, hb] at h
  · by_cases hb : is_balanced entries = true <;>
      simp [generate_custom_entry, hb, Bool.not_eq_true] at hb ⊢

/-- Witness for C9: a balanced two-line list passes and the generate
step returns it unchanged. -/
theorem C9_validate_unbalanced_witness :
    is_balanced [⟨"Cash", 500, 0⟩, ⟨"To Sales", 0, 500⟩] = true := by
  have h := (C9_validate_unbalanced [⟨"Cash", 500, 0⟩, ⟨"To Sales", 0, 500⟩]).2.1
  apply h
  simp [total_dr, total_cr]

/-- Claim C10: for every predefined transaction archetype and positive
amount (with a legal GST rate when the GST checkbox is on), every
generated posting is a pure debit or a pure credit line, the debit total
equals the credit total exactly, and the subsequent balance verification
reports balanced. -/
theorem C10_archetype_balance (form : TransactionForm) (amount : ℚ)
    (hpos : 0 < amount) (hgst : form_gst_legal form) :
    (∀ p ∈ form_entries form amount, oneSided p) ∧
    total_dr (form_entries form amount) = total_cr (form_entries form amount) ∧
    is_balanced (form_entries form amount) = true := by
  have hne : amount ≠ 0 := hpos.ne'
  cases form with
  | cashBank cb nat fa ta =>
    have hsum : total_dr (form_entries (.cashBank cb nat fa ta) amount)
        = total_cr (form_entries (.cashBank cb nat fa ta) amount) := by
      by_cases hnat : nat = "Receipt" <;>
        simp [form_entries, cash_bank_entries, hnat, total_dr, total_cr]
    refine ⟨?_, hsum, is_balanced_of_eq _ hsum⟩
    intro p hp
    by_cases hnat : nat = "Receipt" <;>
      simp only [form_entries, cash_bank_entries, hnat, if_true, if_false,
        List.mem_cons, List.mem_singleton, List.not_mem_nil, or_false, if_neg,
        reduceIte] at hp <;>
      rcases hp with rfl | rfl <;> simp [oneSided, hne]
  | purchase pt g s gst =>
    cases gst with
    | none =>
      have hsum : total_dr (form_entries (.purchase pt g s none) amount)
          = total_cr (form_entries (.purchase pt g s none) amount) := by
        by_cases hpt : pt = "Credit Purchase" <;>
          simp [form_entries, purchase_entries, hpt, total_dr, total_cr]
      refine ⟨?_, hsum, is_balanced_of_eq _ hsum⟩
      intro p hp
      by_cases hpt : pt = "Credit Purchase" <;>
        simp only [form_entries, purchase_entries, hpt, Bool.false_eq_true,
          if_true, if_false, reduceIte, List.cons_append, List.nil_append,
          List.mem_cons, List.not_mem_nil, or_false] at hp <;>
        rcases hp with rfl | rfl <;> simp [oneSided, hne]
    | some r =>
      have hr : 0 < r := by
        simp only [form_gst_legal] at hgst
        rcases hgst with h | h | h | h <;> subst h <;> norm_num
      have hden : (1:ℚ) < 1 + r/100 := by
        have hq : (0:ℚ) < r/100 := by positivity
        linarith
      have hbasic : 0 < amount / (1 + r/100) := div_pos hpos (by linarith)
      have hrem : 0 < amount - amount / (1 + r/100) :=
        sub_pos.mpr (div_lt_self hpos hden)
      have hsum : total_dr (form_entries (.purchase pt g s (some r)) amount)
          = total_cr (form_entries (.purchase pt g s (some r)) amount) := by
        by_cases hpt : pt = "Credit Purchase" <;>
          simp [form_entries, purchase_entries, hpt, total_dr, total_cr]
      refine ⟨?_, hsum, is_balanced_of_eq _ hsum⟩
      intro p hp
      by_cases hpt : pt = "Credit Purchase" <;>
        simp only [form_entries, purchase_entries, hpt, if_true, if_false,
          reduceIte, List.cons_append, List.nil_append, List.mem_cons,
          List.not_mem_nil, or_false] at hp <;>
        rcases hp with rfl | rfl | rfl <;>
        simp [oneSided, hne, hbasic.ne', hrem.ne']
  | sales st g c gst =>
    cases gst with
    | none =>
      have hsum : total_dr (form_entries (.sales st g c none) amount)
          = total_cr (form_entries (.sales st g c none) amount) := by
        by_cases hst : st = "Credit Sales" <;>
          simp [form_entries, sales_entries, hst, total_dr, total_cr]
      refine ⟨?_, hsum, is_balanced_of_eq _ hsum⟩
      intro p hp
      by_cases hst : st = "Credit Sales" <;>
        simp only [form_entries, sales_entries, hst, Bool.false_eq_true, if_true,
          if_false, reduceIte, List.cons_append, List.nil_append, List.mem_cons,
          List.not_mem_nil, or_false] at hp <;>
        rcases hp with rfl | rfl <;> simp [oneSided, hne]
    | some r =>
      have hr : 0 < r := by
        simp only [form_gst_legal] at hgst
        rcases hgst with h | h | h | h <;> subst h <;> norm_num
      have hden : (1:ℚ) < 1 + r/100 := by
        have hq : (0:ℚ) < r/100 := by positivity
        linarith
      have hbasic : 0 < amount / (1 + r/100) := div_pos hpos (by linarith)
      have hrem : 0 < amount - amount / (1 + r/100) :=
        sub_pos.mpr (div_lt_self hpos hden)
      have hsum : total_dr (form_entries (.sales st g c (some r)) amount)
          = total_cr (form_entries (.sales st g c (some r)) amount) := by
        by_cases hst : st = "Credit Sales" <;>
          simp [form_entries, sales_entries, hst, total_dr, total_cr]
      refine ⟨?_, hsum, is_balanced_of_eq _ hsum⟩
      intro p hp
      by_cases hst : st = "Credit Sales" <;>
        simp only [form_entries, sales_entries, hst, if_true, if_false,
          reduceIte, List.cons_append, List.nil_append, List.mem_cons,
          List.not_mem_nil, or_false] at hp <;>
        rcases hp with rfl | rfl | rfl <;>
        simp [oneSided, hne, hbasic.ne', hrem.ne']
  | expense e m cr =>
    have hsum : total_dr (form_entries (.expense e m cr) amount)
        = total_cr (form_entries (.expense e m cr) amount) := by
      by_cases hm : m = "Credit" <;>
        simp [form_entries, expense_entries, hm, total_dr, total_cr]
    refine ⟨?_, hsum, is_balanced_of_eq _ hsum⟩
    intro p hp
    by_cases hm : m = "Credit" <;>
      simp only [form_entries, expense_entries, hm, if_true, if_false, reduceIte,
        List.mem_cons, List.not_mem_nil, or_false] at hp <;>
      rcases hp with rfl | rfl <;> simp [oneSided, hne]
  | income i m =>
    have hsum : total_dr (form_entries (.income i m) amount)
        = total_cr (form_entries (.income i m) amount) := by
      simp [form_entries, income_entries, total_dr, total_cr]
    refine ⟨?_, hsum, is_balanced_of_eq _ hsum⟩
    intro p hp
    simp only [form_entries, income_entries, List.mem_cons, List.not_mem_nil,
      or_false] at hp
    rcases hp with rfl | rfl <;> simp [oneSided, hne]
  | capital ct a =>
    have hsum : total_dr (form_entries (.capital ct a) amount)
        = total_cr (form_entries (.capital ct a) amount) := by
      by_cases hct : ct = "Capital Introduced" ∨ ct = "Additional Capital" <;>
        simp [form_entries, capital_entries, hct, total_dr, total_cr]
    refine ⟨?_, hsum, is_balanced_of_eq _ hsum⟩
    intro p hp
    by_cases hct : ct = "Capital Introduced" ∨ ct = "Additional Capital" <;>
      simp only [form_entries, capital_entries, hct, if_true, if_false, reduceIte,
        List.mem_cons, List.not_mem_nil, or_false] at hp <;>
      rcases hp with rfl | rfl <;> simp [oneSided, hne]

/-- Witness for C10: a GST cash purchase of 1180 at rate 18 percent
balances. -/
theorem C10_archetype_balance_witness :
    total_dr (form_entries (.purchase "Cash Purchase" "Goods" "" (some 18)) 1180)
      = total_cr (form_entries (.purchase "Cash Purchase" "Goods" "" (some 18)) 1180) :=
  (C10_archetype_balance (.purchase "Cash Purchase" "Goods" "" (some 18)) 1180
    (by norm_num) (by norm_num [form_gst_legal])).2.1

end Shorya
